import Mathlib

/-!
Verification of the cell-painting core of the Picross notepad application
(`picross-notepad.py`): the grid model, the press/drag/release paint
controller with axis locking, and the toggle semantics.

The Python class `PicrossApp` is embedded shallowly: its mutable fields
(`grid_state`, `dragging_target_state`, `dragging_lock_axis`,
`dragging_path_cells`, `user_is_dragging`) become the fields of `AppState`,
and each method becomes a function `AppState → ... → AppState`.  The canvas
drawing performed by `_set_cell` (deleting the cell's mark tag, reconfiguring
the cell rectangle, drawing overlay glyphs) is modelled as appending one
renderer-notification record `(row, col, state)` to an `events` log: one
`_set_cell` call is one notification to the renderer.
-/

set_option autoImplicit false

namespace Picross

/-- `CELL_SIZE = 28` from the source. -/
def CELL_SIZE : Nat := 28

/-- `GRID_DIMENSIONS = 16` from the source. -/
def GRID_DIMENSIONS : Nat := 16

/-- `class CellState(IntEnum): EMPTY = 0; FILLED = 1; X = 2; MAYBE = 3`. -/
inductive CellState where
  | EMPTY
  | FILLED
  | X
  | MAYBE
deriving DecidableEq, Repr

/-- The axis tag in `dragging_lock_axis`: the Python strings `'row'` / `'col'`. -/
inductive Axis where
  | row
  | col
deriving DecidableEq, Repr

/-- A tkinter pointer event, reduced to the only fields the code reads:
`event.x` and `event.y` (device pixels, may be negative when the pointer
leaves the canvas during a drag). -/
structure Event where
  x : Int
  y : Int
deriving DecidableEq, Repr

/-- The mutable state of `PicrossApp` relevant to painting.  `grid_state` is
the 16×16 cell array (total function; all reads/writes made by the controller
are at validated in-bounds coordinates).  `events` is the log of renderer
notifications emitted by `_set_cell` (one entry per call, oldest first). -/
structure AppState where
  grid_state : Nat → Nat → CellState
  dragging_target_state : CellState
  dragging_lock_axis : Option (Axis × Nat)
  dragging_path_cells : List (Nat × Nat)
  user_is_dragging : Bool
  events : List (Nat × Nat × CellState)

/-- The state after `__init__`: all-empty grid and `_reset_drag()` applied. -/
def initialState : AppState where
  grid_state := fun _ _ => CellState.EMPTY
  dragging_target_state := CellState.EMPTY
  dragging_lock_axis := none
  dragging_path_cells := []
  user_is_dragging := false
  events := []

/-- `_event_to_cell`: returns `None` when `x < 0 or y < 0`, otherwise
`col = x // CELL_SIZE`, `row = y // CELL_SIZE` (Python floor division),
returning the cell only when `0 <= row < GRID_DIMENSIONS` and
`0 <= col < GRID_DIMENSIONS`. -/
def _event_to_cell (event : Event) : Option (Nat × Nat) :=
  if event.x < 0 ∨ event.y < 0 then none
  else
    let col : Int := Int.fdiv event.x CELL_SIZE
    let row : Int := Int.fdiv event.y CELL_SIZE
    if 0 ≤ row ∧ row < GRID_DIMENSIONS ∧ 0 ≤ col ∧ col < GRID_DIMENSIONS then
      some (row.toNat, col.toNat)
    else none

/-- `_event_to_locked_cell`: maps the event through `_event_to_cell`; when
`dragging_lock_axis` is set, overrides the locked coordinate with the stored
index and recomputes the free coordinate from the raw pointer position; then
re-validates bounds. -/
def _event_to_locked_cell (s : AppState) (event : Event) : Option (Nat × Nat) :=
  match _event_to_cell event with
  | none => none
  | some (row0, col0) =>
    let rc : Int × Int :=
      match s.dragging_lock_axis with
      | some (Axis.row, idx) => ((idx : Int), Int.fdiv event.x CELL_SIZE)
      | some (Axis.col, idx) => (Int.fdiv event.y CELL_SIZE, (idx : Int))
      | none => ((row0 : Int), (col0 : Int))
    if 0 ≤ rc.1 ∧ rc.1 < GRID_DIMENSIONS ∧ 0 ≤ rc.2 ∧ rc.2 < GRID_DIMENSIONS then
      some (rc.1.toNat, rc.2.toNat)
    else none

/-- `_update_drag_axis_lock(cell)`: appends `cell` to `dragging_path_cells`
unless it equals the last path entry; then, exactly when the path holds two
cells and no lock is set, locks to `('row', r1)` if the two rows agree, else
to `('col', c1)` if the two columns agree, else sets no lock (a diagonal
pair establishes no axis lock). -/
def _update_drag_axis_lock (s : AppState) (cell : Nat × Nat) : AppState :=
  let path :=
    if s.dragging_path_cells = [] ∨ s.dragging_path_cells.getLast? ≠ some cell then
      s.dragging_path_cells ++ [cell]
    else s.dragging_path_cells
  let lock :=
    if path.length = 2 ∧ s.dragging_lock_axis = none then
      match path with
      | (r1, c1) :: (r2, c2) :: _ =>
        if r1 = r2 then some (Axis.row, r1)
        else if c1 = c2 then some (Axis.col, c1)
        else none
      | _ => s.dragging_lock_axis
    else s.dragging_lock_axis
  { s with dragging_path_cells := path, dragging_lock_axis := lock }

/-- `_compute_drag_target(row, col, desired_state)`: erase always resolves to
`EMPTY`; otherwise toggles to `EMPTY` when the cell already holds the desired
state, else resolves to the desired state. -/
def _compute_drag_target (s : AppState) (row col : Nat) (desired_state : CellState) :
    CellState :=
  let current := s.grid_state row col
  if desired_state = CellState.EMPTY then CellState.EMPTY
  else if current = desired_state then CellState.EMPTY
  else desired_state

/-- `_set_cell(row, col, state)`: unconditionally writes the grid entry and
redraws the cell (modelled as one appended renderer notification). -/
def _set_cell (s : AppState) (row col : Nat) (state : CellState) : AppState :=
  { s with
    grid_state := fun r c => if r = row ∧ c = col then state else s.grid_state r c
    events := s.events ++ [(row, col, state)] }

/-- `_apply_cell_state(event, target_state)`: resolves the (possibly locked)
cell; returns unchanged when the event maps to no cell or the cell violates
the active lock; calls `_set_cell` only when the cell's current state differs
from `target_state`. -/
def _apply_cell_state (s : AppState) (event : Event) (target_state : CellState) :
    AppState :=
  match _event_to_locked_cell s event with
  | none => s
  | some (row, col) =>
    let blocked : Bool :=
      match s.dragging_lock_axis with
      | some (Axis.row, idx) => row ≠ idx
      | some (Axis.col, idx) => col ≠ idx
      | none => false
    if blocked then s
    else if s.grid_state row col ≠ target_state then _set_cell s row col target_state
    else s

/-- `_on_press(event, desired_state)`: resolves the pressed cell, computes
and stores the drag target state, starts a fresh drag session, records the
start cell in the path, and applies the target to the pressed cell. -/
def _on_press (s : AppState) (event : Event) (desired_state : CellState) : AppState :=
  match _event_to_locked_cell s event with
  | none => s
  | some (row, col) =>
    let s1 :=
      { s with
        dragging_target_state := _compute_drag_target s row col desired_state
        dragging_path_cells := []
        dragging_lock_axis := none
        user_is_dragging := true }
    let s2 := _update_drag_axis_lock s1 (row, col)
    _apply_cell_state s2 event s2.dragging_target_state

/-- `_on_drag(event)`: ignored while not dragging; otherwise resolves the
locked cell, updates the axis lock from it, and applies the stored drag
target state. -/
def _on_drag (s : AppState) (event : Event) : AppState :=
  if s.user_is_dragging = false then s
  else
    match _event_to_locked_cell s event with
    | none => s
    | some cell =>
      let s1 := _update_drag_axis_lock s cell
      _apply_cell_state s1 event s1.dragging_target_state

/-- `_reset_drag()`: returns the drag session to its neutral values. -/
def _reset_drag (s : AppState) : AppState :=
  { s with
    user_is_dragging := false
    dragging_lock_axis := none
    dragging_path_cells := []
    dragging_target_state := CellState.EMPTY }

/-- `reset_board()`: `_set_cell(row, col, EMPTY)` for every `row`, `col` in
`range(GRID_DIMENSIONS)`. -/
def reset_board (s : AppState) : AppState :=
  (List.range GRID_DIMENSIONS).foldl
    (fun s' row =>
      (List.range GRID_DIMENSIONS).foldl
        (fun s'' col => _set_cell s'' row col CellState.EMPTY) s')
    s

/-- Folding `_on_drag` over a sequence of drag-motion events. -/
def run_drags (s : AppState) (es : List Event) : AppState :=
  es.foldl _on_drag s

/-- A pointer event landing inside cell `(r, c)`: one pixel past the cell's
top-left corner. -/
def cellEvent (r c : Nat) : Event :=
  ⟨(c : Int) * CELL_SIZE + 1, (r : Int) * CELL_SIZE + 1⟩

/-- Holds of a drag path whose first two recorded cells differ in both the
row and the column. -/
def diagFirstTwo : List (Nat × Nat) → Bool
  | (r1, c1) :: (r2, c2) :: _ => r1 != r2 && c1 != c2
  | _ => false

/-- A renderer notification respects the lock `(a, k)`: its row is `k` for a
row lock, its column is `k` for a column lock. -/
def onAxis (a : Axis) (k : Nat) (ev : Nat × Nat × CellState) : Prop :=
  match a with
  | Axis.row => ev.1 = k
  | Axis.col => ev.2.1 = k

/-- The (dead-code) lock re-check inside `_apply_cell_state`, as a
proposition: the resolved cell agrees with the locked axis. -/
def lockAllows : Option (Axis × Nat) → Nat → Nat → Prop
  | some (Axis.row, idx), row, _ => row = idx
  | some (Axis.col, idx), _, col => col = idx
  | none, _, _ => True

/-- The C5 test scenario: press `FILLED` at `(5, 5)`, then drag through
`(5, 6)`, `(5, 7)`, `(5, 8)`, `(5, 9)` and finally to `(8, 9)`. -/
def scenarioC5 : AppState :=
  run_drags (_on_press initialState (cellEvent 5 5) CellState.FILLED)
    [cellEvent 5 6, cellEvent 5 7, cellEvent 5 8, cellEvent 5 9, cellEvent 8 9]

/-- A mid-gesture state: `FILLED` pressed at cell `(5, 5)`. -/
def draggingAt55 : AppState :=
  _on_press initialState (cellEvent 5 5) CellState.FILLED

/-- Python list subscripting `xs[i]`: indices in `[0, len)` read directly,
indices in `[-len, 0)` wrap around to `len + i`, anything else raises
`IndexError` (modelled as `none`). -/
def pyIndex {α : Type} (xs : List α) (i : Int) : Option α :=
  if 0 ≤ i then
    if i < (xs.length : Int) then xs.get? i.toNat else none
  else
    if (xs.length : Int) + i < 0 then none
    else xs.get? ((xs.length : Int) + i).toNat

/-- The read `self.grid_state[row][col]` on the list-of-lists grid. -/
def getCell (grid : List (List CellState)) (row col : Int) : Option CellState :=
  match pyIndex grid row with
  | none => none
  | some r => pyIndex r col

/-- The `grid_state` created by `__init__`:
`[[CellState.EMPTY for _ in range(GRID_DIMENSIONS)] for _ in range(GRID_DIMENSIONS)]`. -/
def initial_grid : List (List CellState) :=
  List.replicate GRID_DIMENSIONS (List.replicate GRID_DIMENSIONS CellState.EMPTY)

end Picross

namespace Picross

/-! ### Basic facts about the state-machine steps -/

theorem update_lock_grid (s : AppState) (cell : Nat × Nat) :
    (_update_drag_axis_lock s cell).grid_state = s.grid_state := rfl

theorem update_lock_target (s : AppState) (cell : Nat × Nat) :
    (_update_drag_axis_lock s cell).dragging_target_state =
      s.dragging_target_state := rfl

theorem update_lock_events (s : AppState) (cell : Nat × Nat) :
    (_update_drag_axis_lock s cell).events = s.events := rfl

theorem apply_cell_state_target (s : AppState) (e : Event) (S : CellState) :
    (_apply_cell_state s e S).dragging_target_state = s.dragging_target_state := by
  cases h : _event_to_locked_cell s e with
  | none => simp [_apply_cell_state, h]
  | some rc =>
    obtain ⟨row, col⟩ := rc
    simp only [_apply_cell_state, h]
    split
    · rfl
    · split <;> rfl

theorem apply_cell_state_grid_cases (s : AppState) (e : Event) (S : CellState)
    (r c : Nat) :
    (_apply_cell_state s e S).grid_state r c = s.grid_state r c ∨
      (_apply_cell_state s e S).grid_state r c = S := by
  cases h : _event_to_locked_cell s e with
  | none => simp [_apply_cell_state, h]
  | some rc =>
    obtain ⟨row, col⟩ := rc
    simp only [_apply_cell_state, h]
    split
    · exact Or.inl rfl
    · split
      · simp only [_set_cell]
        by_cases hrc : r = row ∧ c = col
        · exact Or.inr (by simp [hrc])
        · exact Or.inl (by simp [hrc])
      · exact Or.inl rfl

theorem apply_cell_state_lock (s : AppState) (e : Event) (S : CellState) :
    (_apply_cell_state s e S).dragging_lock_axis = s.dragging_lock_axis := by
  cases h : _event_to_locked_cell s e with
  | none => simp [_apply_cell_state, h]
  | some rc =>
    obtain ⟨row, col⟩ := rc
    simp only [_apply_cell_state, h]
    split
    · rfl
    · split <;> rfl

theorem apply_cell_state_path (s : AppState) (e : Event) (S : CellState) :
    (_apply_cell_state s e S).dragging_path_cells = s.dragging_path_cells := by
  cases h : _event_to_locked_cell s e with
  | none => simp [_apply_cell_state, h]
  | some rc =>
    obtain ⟨row, col⟩ := rc
    simp only [_apply_cell_state, h]
    split
    · rfl
    · split <;> rfl

theorem event_to_cell_lt (e : Event) (r c : Nat)
    (h : _event_to_cell e = some (r, c)) :
    r < GRID_DIMENSIONS ∧ c < GRID_DIMENSIONS := by
  simp only [_event_to_cell] at h
  split at h
  · exact absurd h (by simp)
  · split at h
    · rename_i hb
      obtain ⟨hr0, hr1, hc0, hc1⟩ := hb
      simp only [Option.some.injEq, Prod.mk.injEq] at h
      obtain ⟨hr, hc⟩ := h
      subst hr hc
      constructor <;> omega
    · exact absurd h (by simp)

/-- With no axis lock active, `_event_to_locked_cell` agrees with
`_event_to_cell`. -/
theorem event_to_locked_cell_of_no_lock (s : AppState) (e : Event)
    (hlock : s.dragging_lock_axis = none) :
    _event_to_locked_cell s e = _event_to_cell e := by
  cases h : _event_to_cell e with
  | none => simp [_event_to_locked_cell, h]
  | some rc =>
    obtain ⟨r, c⟩ := rc
    obtain ⟨hr, hc⟩ := event_to_cell_lt e r c h
    simp only [_event_to_locked_cell, h, hlock]
    rw [if_pos]
    · simp
    · refine ⟨by positivity, ?_, by positivity, ?_⟩ <;> simp <;> omega

/-! ### C1 — press toggle rule -/

/-- Claim C1: for every press at an in-bounds cell with requested paint state
`S`, the resolved target state (`_compute_drag_target`) is `EMPTY` when `S`
is the erase gesture (`EMPTY`); otherwise it is `EMPTY` when the cell
currently holds `S`, and `S` when the cell holds anything else (including a
different non-empty state). -/
theorem C1_press_toggle_rule (s : AppState) (row col : Nat) (S : CellState)
    (_hrow : row < GRID_DIMENSIONS) (_hcol : col < GRID_DIMENSIONS) :
    (S = CellState.EMPTY → _compute_drag_target s row col S = CellState.EMPTY) ∧
    (S ≠ CellState.EMPTY → s.grid_state row col = S →
      _compute_drag_target s row col S = CellState.EMPTY) ∧
    (S ≠ CellState.EMPTY → s.grid_state row col ≠ S →
      _compute_drag_target s row col S = S) := by
  refine ⟨fun h => by simp [_compute_drag_target, h],
    fun hS hcur => by simp [_compute_drag_target, hS, hcur],
    fun hS hcur => by simp [_compute_drag_target, hS, hcur]⟩

/-- Concrete instance of `C1_press_toggle_rule`: pressing `FILLED` on the
empty cell `(0, 0)` of the initial board resolves to `FILLED`. -/
theorem C1_press_toggle_rule_witness :
    (0 : Nat) < GRID_DIMENSIONS ∧
      _compute_drag_target initialState 0 0 CellState.FILLED = CellState.FILLED :=
  ⟨by decide,
    (C1_press_toggle_rule initialState 0 0 CellState.FILLED (by decide)
      (by decide)).2.2 (by decide) (by decide)⟩

/-! ### C8 — events while idle are no-ops -/

/-- Claim C8: a drag-move event delivered while no drag is in progress
(`user_is_dragging` false) leaves the whole state unchanged, and a release
(`_reset_drag`) never touches the grid or emits a notification. -/
theorem C8_idle_events_noop (s : AppState) (e : Event)
    (h : s.user_is_dragging = false) :
    _on_drag s e = s ∧
    (_reset_drag s).grid_state = s.grid_state ∧
    (_reset_drag s).events = s.events :=
  ⟨by simp [_on_drag, h], rfl, rfl⟩

/-- Concrete instance of `C8_idle_events_noop` at the initial (idle) state. -/
theorem C8_idle_events_noop_witness :
    initialState.user_is_dragging = false ∧
    (_on_drag initialState (cellEvent 3 4) = initialState ∧
      (_reset_drag initialState).grid_state = initialState.grid_state ∧
      (_reset_drag initialState).events = initialState.events) :=
  ⟨rfl, C8_idle_events_noop initialState (cellEvent 3 4) rfl⟩

/-! ### C10 — the drag target is fixed at press time -/

/-- Claim C10: a drag-move never changes the stored drag target state (it is
resolved once, by `_on_press`), any cell it writes is written with exactly
that stored target (so a cell already holding the target keeps its value —
no toggling back mid-drag, including over the start cell), and applying the
target to a cell that already holds it is a complete no-op. -/
theorem C10_target_resolved_once (s : AppState) (e : Event) :
    (_on_drag s e).dragging_target_state = s.dragging_target_state ∧
    (∀ r c, (_on_drag s e).grid_state r c = s.grid_state r c ∨
      (_on_drag s e).grid_state r c = s.dragging_target_state) ∧
    (∀ S r c, _event_to_locked_cell s e = some (r, c) →
      s.grid_state r c = S → _apply_cell_state s e S = s) := by
  refine ⟨?_, ?_, ?_⟩
  · by_cases h : s.user_is_dragging = false
    · simp [_on_drag, h]
    · simp only [_on_drag, if_neg h]
      cases hc : _event_to_locked_cell s e with
      | none => rfl
      | some cell =>
        simp only
        rw [apply_cell_state_target, update_lock_target]
  · intro r c
    by_cases h : s.user_is_dragging = false
    · simp [_on_drag, h]
    · simp only [_on_drag, if_neg h]
      cases hc : _event_to_locked_cell s e with
      | none => exact Or.inl rfl
      | some cell =>
        simp only
        have := apply_cell_state_grid_cases (_update_drag_axis_lock s cell) e
          (_update_drag_axis_lock s cell).dragging_target_state r c
        rwa [update_lock_grid, update_lock_target] at this
  · intro S r c hcell hcur
    simp only [_apply_cell_state, hcell]
    split
    · rfl
    · rw [if_neg]
      simp [hcur]

/-- Concrete instance of `C10_target_resolved_once`: after pressing `FILLED`
at cell `(2, 2)`, re-applying `FILLED` to the same (already filled) cell
changes nothing. -/
theorem C10_target_resolved_once_witness :
    _event_to_locked_cell (_on_press initialState (cellEvent 2 2) CellState.FILLED)
        (cellEvent 2 2) = some (2, 2) ∧
    (_on_press initialState (cellEvent 2 2) CellState.FILLED).grid_state 2 2 =
      CellState.FILLED ∧
    _apply_cell_state (_on_press initialState (cellEvent 2 2) CellState.FILLED)
        (cellEvent 2 2) CellState.FILLED =
      _on_press initialState (cellEvent 2 2) CellState.FILLED :=
  ⟨by decide, by decide,
    (C10_target_resolved_once
        (_on_press initialState (cellEvent 2 2) CellState.FILLED)
        (cellEvent 2 2)).2.2 CellState.FILLED 2 2 (by decide) (by decide)⟩

/-! ### C2 — claimed dominant-axis heuristic for diagonal first moves -/

/-- Counterexample to claim C2: a press at `(4, 4)` followed by a drag to
`(5, 5)` (equal `|dr|` and `|dc|`) leaves `dragging_lock_axis` equal to
`none` — the claimed tie-break row lock `('row', 4)` is never established,
because `_update_drag_axis_lock` only locks when the two path cells share a
row or share a column. -/
theorem C2_diagonal_counterexample :
    (_on_drag (_on_press initialState (cellEvent 4 4) CellState.FILLED)
        (cellEvent 5 5)).dragging_lock_axis = none := by decide

/-- Claim C2 as amended: when the first move away from the start cell changes
both the row and the column, `_update_drag_axis_lock` establishes no axis
lock at all (there is no dominant-axis heuristic and no tie-break; diagonal
first moves leave the gesture unlocked). -/
theorem C2_diagonal_no_lock (s : AppState) (p cell : Nat × Nat)
    (hpath : s.dragging_path_cells = [p])
    (hlock : s.dragging_lock_axis = none)
    (hr : p.1 ≠ cell.1) (hc : p.2 ≠ cell.2) :
    (_update_drag_axis_lock s cell).dragging_lock_axis = none := by
  obtain ⟨r1, c1⟩ := p
  obtain ⟨r2, c2⟩ := cell
  simp only at hr hc
  have hne : (r1, c1) ≠ (r2, c2) := by simp [hr]
  simp [_update_drag_axis_lock, hpath, hlock, hne, hr, hc]

/-- Concrete instance of `C2_diagonal_no_lock`: after the press at `(4, 4)`,
the drag-path is `[(4, 4)]`, no lock is set, and processing the diagonal
cell `(5, 5)` still sets no lock. -/
theorem C2_diagonal_no_lock_witness :
    (_on_press initialState (cellEvent 4 4) CellState.FILLED).dragging_path_cells
        = [(4, 4)] ∧
    (_on_press initialState (cellEvent 4 4) CellState.FILLED).dragging_lock_axis
        = none ∧
    (_update_drag_axis_lock
        (_on_press initialState (cellEvent 4 4) CellState.FILLED)
        (5, 5)).dragging_lock_axis = none :=
  ⟨by decide, by decide,
    C2_diagonal_no_lock (_on_press initialState (cellEvent 4 4) CellState.FILLED)
      (4, 4) (5, 5) (by decide) (by decide) (by decide) (by decide)⟩

/-! ### C9 — a diagonal first move disables axis locking for the gesture -/

theorem update_lock_preserves_diag (s : AppState) (cell : Nat × Nat)
    (hdiag : diagFirstTwo s.dragging_path_cells = true)
    (hlock : s.dragging_lock_axis = none) :
    diagFirstTwo (_update_drag_axis_lock s cell).dragging_path_cells = true ∧
    (_update_drag_axis_lock s cell).dragging_lock_axis = none := by
  match hp : s.dragging_path_cells with
  | [] => rw [hp] at hdiag; exact absurd hdiag (by simp [diagFirstTwo])
  | [_] => rw [hp] at hdiag; exact absurd hdiag (by simp [diagFirstTwo])
  | (r1, c1) :: (r2, c2) :: rest =>
    rw [hp] at hdiag
    simp only [diagFirstTwo, Bool.and_eq_true, bne_iff_ne, ne_eq] at hdiag
    obtain ⟨hr, hc⟩ := hdiag
    simp only [_update_drag_axis_lock, hp, hlock]
    constructor
    · split <;> simp [diagFirstTwo, hr, hc]
    · split
      · rename_i happ
        split
        · rename_i hlen
          split
          · rename_i r1' c1' r2' c2' _ heq
            simp only [List.cons_append, List.cons.injEq, Prod.mk.injEq] at heq
            obtain ⟨⟨e1, e2⟩, ⟨e3, e4⟩, _⟩ := heq
            subst e1 e2 e3 e4
            simp [if_neg hr, if_neg hc]
          · rfl
        · rfl
      · split
        · rename_i hlen
          split
          · rename_i r1' c1' r2' c2' _ heq
            simp only [List.cons.injEq, Prod.mk.injEq] at heq
            obtain ⟨⟨e1, e2⟩, ⟨e3, e4⟩, _⟩ := heq
            subst e1 e2 e3 e4
            simp [if_neg hr, if_neg hc]
          · rename_i hno
            exact (hno r1 c1 r2 c2 rest rfl).elim
        · rfl

theorem on_drag_preserves_diag (s : AppState) (e : Event)
    (hdiag : diagFirstTwo s.dragging_path_cells = true)
    (hlock : s.dragging_lock_axis = none) :
    diagFirstTwo (_on_drag s e).dragging_path_cells = true ∧
    (_on_drag s e).dragging_lock_axis = none := by
  by_cases h : s.user_is_dragging = false
  · simp [_on_drag, h, hdiag, hlock]
  · simp only [_on_drag, if_neg h]
    cases hc : _event_to_locked_cell s e with
    | none => exact ⟨hdiag, hlock⟩
    | some cell =>
      simp only
      obtain ⟨h1, h2⟩ := update_lock_preserves_diag s cell hdiag hlock
      rw [apply_cell_state_path, apply_cell_state_lock]
      exact ⟨h1, h2⟩

/-- Claim C9: once the drag path's first two cells are diagonal (the first
move away from the start changed both row and column), no axis lock is ever
established for the remainder of the gesture — after any further sequence of
drag-move events the lock is still `none`, and every event therefore resolves
to its raw (unprojected) cell. -/
theorem C9_diagonal_never_locks (s : AppState) (es : List Event)
    (hdiag : diagFirstTwo s.dragging_path_cells = true)
    (hlock : s.dragging_lock_axis = none) :
    diagFirstTwo (run_drags s es).dragging_path_cells = true ∧
    (run_drags s es).dragging_lock_axis = none ∧
    (∀ e', _event_to_locked_cell (run_drags s es) e' = _event_to_cell e') := by
  induction es generalizing s with
  | nil =>
    exact ⟨hdiag, hlock, fun e' => event_to_locked_cell_of_no_lock s e' hlock⟩
  | cons e es ih =>
    obtain ⟨h1, h2⟩ := on_drag_preserves_diag s e hdiag hlock
    exact ih (_on_drag s e) h1 h2

/-- Concrete instance of `C9_diagonal_never_locks`: press at `(4, 4)`, drag
diagonally to `(5, 5)`, then drag twice more anywhere — the lock is still
`none`. -/
theorem C9_diagonal_never_locks_witness :
    diagFirstTwo (run_drags
        (_on_drag (_on_press initialState (cellEvent 4 4) CellState.FILLED)
          (cellEvent 5 5))
        [cellEvent 9 2, cellEvent 0 15]).dragging_path_cells = true ∧
    (run_drags
        (_on_drag (_on_press initialState (cellEvent 4 4) CellState.FILLED)
          (cellEvent 5 5))
        [cellEvent 9 2, cellEvent 0 15]).dragging_lock_axis = none ∧
    _event_to_locked_cell (run_drags
        (_on_drag (_on_press initialState (cellEvent 4 4) CellState.FILLED)
          (cellEvent 5 5))
        [cellEvent 9 2, cellEvent 0 15]) (cellEvent 7 7) =
      _event_to_cell (cellEvent 7 7) := by
  have h := C9_diagonal_never_locks
    (_on_drag (_on_press initialState (cellEvent 4 4) CellState.FILLED)
      (cellEvent 5 5))
    [cellEvent 9 2, cellEvent 0 15] (by decide) (by decide)
  exact ⟨h.1, h.2.1, h.2.2 (cellEvent 7 7)⟩

/-! ### C5 — an established axis lock persists and constrains all painting -/

theorem update_lock_of_some (s : AppState) (cell : Nat × Nat) (a : Axis) (k : Nat)
    (h : s.dragging_lock_axis = some (a, k)) :
    (_update_drag_axis_lock s cell).dragging_lock_axis = some (a, k) := by
  simp [_update_drag_axis_lock, h]

theorem apply_cell_state_events_locked (s : AppState) (e : Event) (S : CellState)
    (a : Axis) (k : Nat) (h : s.dragging_lock_axis = some (a, k)) :
    (_apply_cell_state s e S).events = s.events ∨
    ∃ r c, (_apply_cell_state s e S).events = s.events ++ [(r, c, S)] ∧
      onAxis a k (r, c, S) := by
  cases hc : _event_to_locked_cell s e with
  | none => exact Or.inl (by simp [_apply_cell_state, hc])
  | some rc =>
    obtain ⟨row, col⟩ := rc
    simp only [_apply_cell_state, hc, h]
    cases a with
    | row =>
      by_cases hrow : row = k
      · simp only [hrow, ne_eq, not_true_eq_false, decide_False]
        rw [if_neg (by simp)]
        split
        · exact Or.inr ⟨k, col, by simp [_set_cell, onAxis]⟩
        · exact Or.inl rfl
      · rw [if_pos (by simp [hrow])]
        exact Or.inl rfl
    | col =>
      by_cases hcol : col = k
      · simp only [hcol, ne_eq, not_true_eq_false, decide_False]
        rw [if_neg (by simp)]
        split
        · exact Or.inr ⟨row, k, by simp [_set_cell, onAxis]⟩
        · exact Or.inl rfl
      · rw [if_pos (by simp [hcol])]
        exact Or.inl rfl

theorem on_drag_locked_step (s : AppState) (e : Event) (a : Axis) (k : Nat)
    (h : s.dragging_lock_axis = some (a, k)) :
    (_on_drag s e).dragging_lock_axis = some (a, k) ∧
    ∀ ev ∈ (_on_drag s e).events, ev ∈ s.events ∨ onAxis a k ev := by
  by_cases hd : s.user_is_dragging = false
  · simp only [_on_drag, if_pos hd]
    exact ⟨h, fun ev hev => Or.inl hev⟩
  · simp only [_on_drag, if_neg hd]
    cases hc : _event_to_locked_cell s e with
    | none => exact ⟨h, fun ev hev => Or.inl hev⟩
    | some cell =>
      simp only
      have hlock1 : (_update_drag_axis_lock s cell).dragging_lock_axis = some (a, k) :=
        update_lock_of_some s cell a k h
      refine ⟨by rw [apply_cell_state_lock]; exact hlock1, fun ev hev => ?_⟩
      rcases apply_cell_state_events_locked (_update_drag_axis_lock s cell) e
          (_update_drag_axis_lock s cell).dragging_target_state a k hlock1 with
        heq | ⟨r, c, heq, hax⟩
      · rw [heq, update_lock_events] at hev
        exact Or.inl hev
      · rw [heq, update_lock_events] at hev
        rcases List.mem_append.mp hev with h1 | h1
        · exact Or.inl h1
        · simp only [List.mem_singleton] at h1
          subst h1
          exact Or.inr hax

/-- Claim C5: once an axis lock `(a, k)` is established it persists unchanged
through every further drag-move, and every renderer notification emitted
afterwards respects the lock (row `k` under a row lock, column `k` under a
column lock); concretely, pressing at `(5, 5)` and dragging through
`(5, 6)..(5, 9)` then to `(8, 9)` paints exactly the straight line
`(5, 5)..(5, 9)` — the L-corner `(8, 9)` stays empty. -/
theorem C5_axis_lock_persists (s : AppState) (es : List Event) (a : Axis) (k : Nat)
    (h : s.dragging_lock_axis = some (a, k)) :
    ((run_drags s es).dragging_lock_axis = some (a, k) ∧
      ∀ ev ∈ (run_drags s es).events, ev ∈ s.events ∨ onAxis a k ev) ∧
    (scenarioC5.events =
        [(5, 5, CellState.FILLED), (5, 6, CellState.FILLED),
          (5, 7, CellState.FILLED), (5, 8, CellState.FILLED),
          (5, 9, CellState.FILLED)] ∧
      scenarioC5.grid_state 8 9 = CellState.EMPTY) := by
  refine ⟨?_, by decide, by decide⟩
  induction es generalizing s with
  | nil => exact ⟨h, fun ev hev => Or.inl hev⟩
  | cons e es ih =>
    obtain ⟨h1, h2⟩ := on_drag_locked_step s e a k h
    obtain ⟨h3, h4⟩ := ih (_on_drag s e) h1
    refine ⟨h3, fun ev hev => ?_⟩
    rcases h4 ev hev with h5 | h5
    · exact h2 ev h5
    · exact Or.inr h5

/-- Concrete instance of `C5_axis_lock_persists`: after the press at `(5, 5)`
and the first drag to `(5, 6)` the lock is `('row', 5)`, and it survives the
remaining drags of the scenario. -/
theorem C5_axis_lock_persists_witness :
    (_on_drag (_on_press initialState (cellEvent 5 5) CellState.FILLED)
        (cellEvent 5 6)).dragging_lock_axis = some (Axis.row, 5) ∧
    (run_drags
        (_on_drag (_on_press initialState (cellEvent 5 5) CellState.FILLED)
          (cellEvent 5 6))
        [cellEvent 5 7, cellEvent 5 8, cellEvent 5 9,
          cellEvent 8 9]).dragging_lock_axis = some (Axis.row, 5) :=
  ⟨by decide,
    (C5_axis_lock_persists
        (_on_drag (_on_press initialState (cellEvent 5 5) CellState.FILLED)
          (cellEvent 5 6))
        [cellEvent 5 7, cellEvent 5 8, cellEvent 5 9, cellEvent 8 9]
        Axis.row 5 (by decide)).1.1⟩

/-! ### C3 — claimed clamping of out-of-bounds drag positions -/

/-- Counterexample to claim C3: while dragging from `(5, 5)`, a drag-move
whose pointer has left the canvas (`x = -3`, `y` still inside row 5) is
ignored — the claimed clamping to the nearest edge cell `(5, 0)` does not
happen (the cell stays `EMPTY` and no notification is emitted), because
`_event_to_cell` returns `None` whenever `x < 0 or y < 0`. -/
theorem C3_clamping_counterexample :
    (_on_drag draggingAt55 ⟨-3, 5 * CELL_SIZE + 1⟩).grid_state 5 0 =
      CellState.EMPTY ∧
    (_on_drag draggingAt55 ⟨-3, 5 * CELL_SIZE + 1⟩).events =
      draggingAt55.events := by decide

/-- Claim C3 as amended: a drag-move whose raw pointer position maps to no
in-bounds cell (negative coordinates, or a cell index outside `[0, N)`) is
ignored entirely — `_on_drag` returns the state unchanged; out-of-canvas drag
positions are dropped, not clamped to the nearest edge cell. -/
theorem C3_out_of_bounds_drag_ignored (s : AppState) (e : Event)
    (h : _event_to_cell e = none) :
    _on_drag s e = s := by
  have hl : _event_to_locked_cell s e = none := by
    simp [_event_to_locked_cell, h]
  by_cases hd : s.user_is_dragging = false
  · simp [_on_drag, hd]
  · simp [_on_drag, hd, hl]

/-- Concrete instance of `C3_out_of_bounds_drag_ignored`: the off-canvas
event `(x, y) = (-3, 141)` maps to no cell and its drag-move is a no-op. -/
theorem C3_out_of_bounds_drag_ignored_witness :
    _event_to_cell ⟨-3, 5 * CELL_SIZE + 1⟩ = none ∧
    _on_drag draggingAt55 ⟨-3, 5 * CELL_SIZE + 1⟩ = draggingAt55 :=
  ⟨by decide,
    C3_out_of_bounds_drag_ignored draggingAt55 ⟨-3, 5 * CELL_SIZE + 1⟩ (by decide)⟩

/-! ### C4 — where the no-op guard for repeated paints lives -/

/-- Counterexample to claim C4: `_set_cell` has no equal-state guard — after
`_set_cell(0, 0, FILLED)` the cell holds `FILLED`, yet a second identical
`_set_cell(0, 0, FILLED)` emits a second renderer notification (two in total,
not the claimed one). -/
theorem C4_set_cell_counterexample :
    (_set_cell initialState 0 0 CellState.FILLED).grid_state 0 0 =
      CellState.FILLED ∧
    (_set_cell (_set_cell initialState 0 0 CellState.FILLED) 0 0
        CellState.FILLED).events.length = 2 := by decide

theorem event_to_locked_cell_congr (s' s : AppState) (e : Event)
    (h : s'.dragging_lock_axis = s.dragging_lock_axis) :
    _event_to_locked_cell s' e = _event_to_locked_cell s e := by
  simp [_event_to_locked_cell, h]

theorem apply_cell_state_cases (s : AppState) (e : Event) (S : CellState) :
    _apply_cell_state s e S = s ∨
    ∃ row col, _event_to_locked_cell s e = some (row, col) ∧
      lockAllows s.dragging_lock_axis row col ∧
      s.grid_state row col ≠ S ∧
      _apply_cell_state s e S = _set_cell s row col S := by
  cases hc : _event_to_locked_cell s e with
  | none => exact Or.inl (by simp [_apply_cell_state, hc])
  | some rc =>
    obtain ⟨row, col⟩ := rc
    cases hl : s.dragging_lock_axis with
    | none =>
      by_cases hg : s.grid_state row col = S
      · exact Or.inl (by simp [_apply_cell_state, hc, hl, hg])
      · exact Or.inr ⟨row, col, rfl, trivial, hg,
          by simp [_apply_cell_state, hc, hl, hg]⟩
    | some ak =>
      obtain ⟨a, k⟩ := ak
      cases a with
      | row =>
        by_cases hrow : row = k
        · subst hrow
          by_cases hg : s.grid_state row col = S
          · exact Or.inl (by simp [_apply_cell_state, hc, hl, hg])
          · exact Or.inr ⟨row, col, rfl, rfl, hg,
              by simp [_apply_cell_state, hc, hl, hg]⟩
        · exact Or.inl (by simp [_apply_cell_state, hc, hl, hrow])
      | col =>
        by_cases hcol : col = k
        · subst hcol
          by_cases hg : s.grid_state row col = S
          · exact Or.inl (by simp [_apply_cell_state, hc, hl, hg])
          · exact Or.inr ⟨row, col, rfl, rfl, hg,
              by simp [_apply_cell_state, hc, hl, hg]⟩
        · exact Or.inl (by simp [_apply_cell_state, hc, hl, hcol])

/-- Claim C4 as amended: the equal-state no-op guard lives in the controller
(`_apply_cell_state`), not in `_set_cell`: applying a paint state through
`_apply_cell_state` is idempotent, so applying the same state twice in a row
yields exactly the state (and renderer notifications) of applying it once. -/
theorem C4_apply_cell_state_idempotent (s : AppState) (e : Event) (S : CellState) :
    _apply_cell_state (_apply_cell_state s e S) e S = _apply_cell_state s e S := by
  rcases apply_cell_state_cases s e S with h | ⟨row, col, hc, hax, hg, h⟩
  · rw [h]; exact h
  · rw [h]
    rcases apply_cell_state_cases (_set_cell s row col S) e S with
      h2 | ⟨row', col', hc2, hax2, hg2, h2⟩
    · exact h2
    · exfalso
      rw [event_to_locked_cell_congr (_set_cell s row col S) s e rfl, hc] at hc2
      simp only [Option.some.injEq, Prod.mk.injEq] at hc2
      obtain ⟨hr, hco⟩ := hc2
      subst hr hco
      exact hg2 (by simp [_set_cell])

/-! ### C6 — what `reset_board` does and how many notifications it emits -/

theorem set_cell_grid (s : AppState) (row col : Nat) (state : CellState) (r c : Nat) :
    (_set_cell s row col state).grid_state r c =
      if r = row ∧ c = col then state else s.grid_state r c := rfl

theorem set_cell_events (s : AppState) (row col : Nat) (state : CellState) :
    (_set_cell s row col state).events = s.events ++ [(row, col, state)] := rfl

theorem foldl_set_row_grid (n : Nat) (s : AppState) (row r c : Nat) :
    ((List.range n).foldl
        (fun s'' col => _set_cell s'' row col CellState.EMPTY) s).grid_state r c =
      if r = row ∧ c < n then CellState.EMPTY else s.grid_state r c := by
  induction n generalizing s with
  | zero => simp
  | succ n ih =>
    rw [List.range_succ, List.foldl_append, List.foldl_cons, List.foldl_nil]
    rw [set_cell_grid, ih s]
    by_cases hr : r = row
    · subst hr
      by_cases hc : c = n
      · subst hc
        simp [Nat.lt_succ_self]
      · by_cases hcn : c < n
        · simp [hc, hcn, Nat.lt_succ_of_lt hcn]
        · have : ¬ c < n + 1 := by omega
          simp [hc, hcn, this]
    · simp [hr]

theorem foldl_set_row_events (n : Nat) (s : AppState) (row : Nat) :
    ((List.range n).foldl
        (fun s'' col => _set_cell s'' row col CellState.EMPTY) s).events.length =
      s.events.length + n := by
  induction n generalizing s with
  | zero => simp
  | succ n ih =>
    rw [List.range_succ, List.foldl_append, List.foldl_cons, List.foldl_nil]
    rw [set_cell_events, List.length_append, ih s]
    simp
    omega

theorem foldl_reset_grid (m : Nat) (s : AppState) (r c : Nat) :
    ((List.range m).foldl
        (fun s' row =>
          (List.range GRID_DIMENSIONS).foldl
            (fun s'' col => _set_cell s'' row col CellState.EMPTY) s')
        s).grid_state r c =
      if r < m ∧ c < GRID_DIMENSIONS then CellState.EMPTY else s.grid_state r c := by
  induction m generalizing s with
  | zero => simp
  | succ m ih =>
    rw [List.range_succ, List.foldl_append, List.foldl_cons, List.foldl_nil]
    rw [foldl_set_row_grid, ih s]
    by_cases hc : c < GRID_DIMENSIONS
    · by_cases hr : r = m
      · subst hr
        simp [hc, Nat.lt_succ_self]
      · by_cases hrm : r < m
        · simp [hc, hr, hrm, Nat.lt_succ_of_lt hrm]
        · have : ¬ r < m + 1 := by omega
          simp [hc, hr, hrm, this]
    · simp [hc]

theorem foldl_reset_events (m : Nat) (s : AppState) :
    ((List.range m).foldl
        (fun s' row =>
          (List.range GRID_DIMENSIONS).foldl
            (fun s'' col => _set_cell s'' row col CellState.EMPTY) s')
        s).events.length =
      s.events.length + m * GRID_DIMENSIONS := by
  induction m generalizing s with
  | zero => simp
  | succ m ih =>
    rw [List.range_succ, List.foldl_append, List.foldl_cons, List.foldl_nil]
    rw [foldl_set_row_events, ih s]
    ring

/-- `reset_board` emits one renderer notification per grid cell —
`N² = 256` of them — regardless of the grid's prior contents. -/
theorem reset_board_events_length (s : AppState) :
    (reset_board s).events.length =
      s.events.length + GRID_DIMENSIONS * GRID_DIMENSIONS := by
  rw [reset_board, foldl_reset_events]

/-- Counterexample to claim C6: the initial grid is all-`Empty` by
construction (`grid_state := fun _ _ => EMPTY`), so it has `K = 0` non-empty
cells, yet `reset_board` emits `256` renderer notifications, not the claimed
one-per-previously-non-empty-cell (`0`): `_set_cell` is called
unconditionally for every cell. -/
theorem C6_reset_counterexample :
    (reset_board initialState).events.length = 256 := by
  rw [reset_board_events_length]; rfl

/-- Claim C6 as amended: `reset_board` leaves every in-bounds cell `Empty`
(the same end-state as clearing each non-empty cell individually with
`_set_cell(_, EMPTY)`), but it notifies the renderer once per cell — `N²`
notifications in total — independent of how many cells were non-empty. -/
theorem C6_reset_board_clears (s : AppState) :
    (∀ r c, r < GRID_DIMENSIONS → c < GRID_DIMENSIONS →
      (reset_board s).grid_state r c = CellState.EMPTY) ∧
    (reset_board s).events.length =
      s.events.length + GRID_DIMENSIONS * GRID_DIMENSIONS := by
  refine ⟨fun r c hr hc => ?_, reset_board_events_length s⟩
  rw [reset_board, foldl_reset_grid]
  simp [hr, hc]

/-- Concrete instance of `C6_reset_board_clears` after painting two cells. -/
theorem C6_reset_board_clears_witness :
    (reset_board (_set_cell (_set_cell initialState 2 3 CellState.X) 7 7
        CellState.MAYBE)).grid_state 7 7 = CellState.EMPTY ∧
    (reset_board (_set_cell (_set_cell initialState 2 3 CellState.X) 7 7
        CellState.MAYBE)).events.length =
      (_set_cell (_set_cell initialState 2 3 CellState.X) 7 7
        CellState.MAYBE).events.length + GRID_DIMENSIONS * GRID_DIMENSIONS :=
  ⟨(C6_reset_board_clears (_set_cell (_set_cell initialState 2 3 CellState.X) 7 7
      CellState.MAYBE)).1 7 7 (by decide) (by decide),
    (C6_reset_board_clears (_set_cell (_set_cell initialState 2 3 CellState.X) 7 7
      CellState.MAYBE)).2⟩

/-! ### C7 — what out-of-range reads of `grid_state` actually do

The source has no dedicated accessor: reads are plain Python subscripts
`self.grid_state[row][col]` (as in `_compute_drag_target` and `_set_cell`),
modelled by `pyIndex` / `getCell` above, with `none` standing for the raised
`IndexError`. -/

/-- Counterexample to claim C7: the out-of-range coordinate `(-1, 0)` (row
outside `[0, N)`) does not fail — Python's negative indexing silently wraps
to row `N - 1` and the read succeeds, returning that cell's state. -/
theorem C7_negative_read_counterexample :
    getCell initial_grid (-1) 0 = some CellState.EMPTY := by decide

theorem pyIndex_eq_none_iff {α : Type} (xs : List α) (i : Int) :
    pyIndex xs i = none ↔ i < -(xs.length : Int) ∨ (xs.length : Int) ≤ i := by
  unfold pyIndex
  split
  · rename_i hpos
    split
    · rename_i hlt
      rw [List.get?_eq_getElem?]
      constructor
      · intro h
        rw [List.getElem?_eq_none_iff] at h
        omega
      · intro h
        exact absurd h (by omega)
    · rename_i hge
      exact ⟨fun _ => by omega, fun _ => rfl⟩
  · rename_i hneg
    split
    · rename_i hout
      exact ⟨fun _ => by omega, fun _ => rfl⟩
    · rename_i hin
      rw [List.get?_eq_getElem?]
      constructor
      · intro h
        rw [List.getElem?_eq_none_iff] at h
        omega
      · intro h
        exact absurd h (by omega)

theorem pyIndex_mem {α : Type} (xs : List α) (i : Int) (a : α)
    (h : pyIndex xs i = some a) : a ∈ xs := by
  unfold pyIndex at h
  split at h
  · split at h
    · exact List.get?_mem h
    · exact absurd h (by simp)
  · split at h
    · exact absurd h (by simp)
    · exact List.get?_mem h

/-- Claim C7 as amended: a grid read `grid_state[row][col]` raises
`IndexError` exactly when `row` or `col` lies outside `[-N, N)`; coordinates
in `[-N, -1]` — although outside the claimed valid range `[0, N)` — are
silently accepted and wrap around to the opposite edge, so not every
out-of-range read fails. -/
theorem C7_read_failure_characterised (grid : List (List CellState)) (row col : Int)
    (hlen : grid.length = GRID_DIMENSIONS)
    (hrows : ∀ r ∈ grid, r.length = GRID_DIMENSIONS) :
    getCell grid row col = none ↔
      (row < -(GRID_DIMENSIONS : Int) ∨ (GRID_DIMENSIONS : Int) ≤ row ∨
        col < -(GRID_DIMENSIONS : Int) ∨ (GRID_DIMENSIONS : Int) ≤ col) := by
  unfold getCell
  cases hp : pyIndex grid row with
  | none =>
    rw [pyIndex_eq_none_iff, hlen] at hp
    simp only [true_iff]
    tauto
  | some r =>
    have hrow_in : ¬ (row < -(GRID_DIMENSIONS : Int) ∨ (GRID_DIMENSIONS : Int) ≤ row) := by
      intro hcon
      rw [← hlen] at hcon
      have : pyIndex grid row = none := (pyIndex_eq_none_iff grid row).mpr (by omega)
      rw [this] at hp
      exact Option.noConfusion hp
    have hr : r.length = GRID_DIMENSIONS := hrows r (pyIndex_mem grid row r hp)
    rw [pyIndex_eq_none_iff, hr]
    constructor
    · intro h
      right
      right
      tauto
    · intro h
      rcases h with h | h | h | h
      · exact absurd (Or.inl h) hrow_in
      · exact absurd (Or.inr h) hrow_in
      · exact Or.inl h
      · exact Or.inr h

/-- Concrete instance of `C7_read_failure_characterised`: on the initial
grid, reading row `16` fails (Python `IndexError`). -/
theorem C7_read_failure_characterised_witness :
    initial_grid.length = GRID_DIMENSIONS ∧
    getCell initial_grid 16 0 = none :=
  ⟨rfl,
    (C7_read_failure_characterised initial_grid 16 0 rfl (by decide)).mpr
      (by decide)⟩

end Picross
